import Mathlib

/-!
Verification development for the PW Attendance Portal QR attendance core.

The definitions below are a shallow embedding of the JavaScript source:

* src/components/faculty/OfflineQRGenerator.jsx
    generateQRWithEntropy, the session timer effect and the rotation effect
* src/components/student/QRScanner.jsx
    onScanSuccess (the scan validator) and submitAttendance
* src/services/firebase.js
    createAttendanceSession, markAttendance, deactivateSession,
    getActiveSessions, saveQRCodeToStorage over an explicit Firestore model

Machine integers do not occur (JS numbers here are epoch milliseconds and
small counters, modelled as Nat, with JS float division by 1000 translated
to an exact integer comparison).  Wall-clock reads are passed explicitly.
-/

namespace PW

/-! btoa: the browser base64 encoder, used by the generator for the
checksum and entropyMix fields.  Characters are taken modulo 256 exactly
as btoa does for latin-1 input. -/

def b64Alphabet : List Char :=
  "ABCDEFGHIJKLMNOPQRSTUVWXYZabcdefghijklmnopqrstuvwxyz0123456789+/".data

def b64Char (n : Nat) : Char := b64Alphabet.getD n 'A'

def btoaAux : List Nat → List Char
  | [] => []
  | [a] => [b64Char (a / 4), b64Char (a % 4 * 16), '=', '=']
  | [a, b] =>
      [b64Char (a / 4), b64Char (a % 4 * 16 + b / 16), b64Char (b % 16 * 4), '=']
  | a :: b :: c :: rest =>
      b64Char (a / 4) :: b64Char (a % 4 * 16 + b / 16) ::
        b64Char (b % 16 * 4 + c / 64) :: b64Char (c % 64) :: btoaAux rest

def btoa (s : String) : String :=
  String.mk (btoaAux (s.data.map (fun c => c.toNat % 256)))

/-- substr(0, n) on a JS string. -/
def strTake (s : String) (n : Nat) : String := String.mk (s.data.take n)

/-! Token generator (OfflineQRGenerator.jsx, generateQRWithEntropy). -/

/-- Base session data created once in generateQRCode of
OfflineQRGenerator.jsx and spread into every rotation payload. -/
structure BaseSessionData where
  sessionId : String
  facultyId : String
  school : String
  batch : String
  subject : String
  periods : Nat
  generatedAt : Nat
  expiresAt : Nat
  mode : String
  version : String
  rotationInterval : Nat
  deriving Repr, DecidableEq

/-- The ambient sources of randomness and clock reads consumed by one call
to generateQRWithEntropy: Date.now / new Date (nowMs), performance.now
(micro), performance.timeOrigin, the four Math.random draws, and the
browser fingerprint numbers. -/
structure Entropy where
  nowMs : Nat
  micro : Nat
  timeOrigin : Nat
  randomSalt : String
  rotationSalt : String
  rotationIdRand : String
  randFloat : String
  browserEntropy : Nat
  memoryUsage : Nat
  deriving Repr, DecidableEq

/-- One rotation payload, the JSON object built by generateQRWithEntropy.
timestamp is Option: the scanner treats a missing (falsy) timestamp as a
malformed payload. -/
structure QRPayload where
  sessionId : String
  facultyId : String
  school : String
  batch : String
  subject : String
  periods : Nat
  generatedAt : Nat
  expiresAt : Nat
  mode : String
  version : String
  rotationIndex : Nat
  rotationId : String
  rotationSalt : String
  timestamp : Option Nat
  microseconds : Nat
  nanoTime : Nat
  randomSalt : String
  entropyMix : String
  millisecond : Nat
  second : Nat
  browserEntropy : Nat
  memoryUsage : Nat
  checksum : String
  deriving Repr, DecidableEq

/-- The checksum line of generateQRWithEntropy:
btoa of sessionId, rotationIndex, microseconds and randomSalt joined by
underscores, truncated to 12 characters. -/
def checksumOf (sessionId : String) (rotationIndex : Nat) (micro : Nat)
    (randomSalt : String) : String :=
  strTake (btoa s!"{sessionId}_{rotationIndex}_{micro}_{randomSalt}") 12

/-- generateQRWithEntropy from OfflineQRGenerator.jsx: spreads the base
session data and adds the rotation specific and entropy fields. -/
def generateQRWithEntropy (base : BaseSessionData) (rotationIndex : Nat)
    (e : Entropy) : QRPayload :=
  let sid := base.sessionId
  let i := rotationIndex
  let t := e.nowMs
  let m := e.micro
  let rr := e.rotationIdRand
  let rf := e.randFloat
  { sessionId := base.sessionId
    facultyId := base.facultyId
    school := base.school
    batch := base.batch
    subject := base.subject
    periods := base.periods
    generatedAt := base.generatedAt
    expiresAt := base.expiresAt
    mode := base.mode
    version := base.version
    rotationIndex := rotationIndex
    rotationId := s!"rot_{i}_{t}_{rr}"
    rotationSalt := e.rotationSalt
    timestamp := some e.nowMs
    microseconds := e.micro
    nanoTime := e.timeOrigin + e.micro
    randomSalt := e.randomSalt
    entropyMix := strTake (btoa s!"{m}_{rf}_{t}_{i}") 16
    millisecond := e.nowMs % 1000
    second := e.nowMs / 1000 % 60
    browserEntropy := e.browserEntropy
    memoryUsage := e.memoryUsage
    checksum := checksumOf sid rotationIndex e.micro e.randomSalt }

/-- Base session data as built in generateQRCode of OfflineQRGenerator.jsx:
sessionId concatenates the creation clock with two random strings, and
expiresAt is fixed to the creation clock plus 30000 ms. -/
def offlineBaseSessionData (now : Nat) (randomPart uniqueId : String)
    (facultyId school batch subject : String) (periods : Nat) :
    BaseSessionData :=
  { sessionId := s!"session_{now}_{randomPart}_{uniqueId}"
    facultyId := facultyId
    school := school
    batch := batch
    subject := subject
    periods := periods
    generatedAt := now
    expiresAt := now + 30000
    mode := "offline_rotating"
    version := "3.0"
    rotationInterval := 5 }

/-! Scan validator (QRScanner.jsx, onScanSuccess). -/

/-- Outcome of onScanSuccess: the thrown-and-caught invalid format error,
the expiry error message, or acceptance (setScannedData and advance to the
confirmation step). -/
inductive ScanResult where
  | invalidFormat
  | expired
  | accepted (qr : QRPayload)
  deriving Repr, DecidableEq

/-- onScanSuccess from QRScanner.jsx on an already JSON-parsed payload.
The structure check rejects a falsy sessionId, facultyId or timestamp.
The age check computes timeDiff = (now - qrTime) / 1000 in float seconds
and rejects when timeDiff > 30, which is exactly now - qrTime > 30000 ms;
the subtraction is over Int since the JS difference can be negative. -/
def onScanSuccess (qr : QRPayload) (now : Nat) : ScanResult :=
  if qr.sessionId = "" ∨ qr.facultyId = "" ∨ qr.timestamp = none then
    ScanResult.invalidFormat
  else
    let qrTime := qr.timestamp.getD 0
    if (30000 : Int) < (now : Int) - (qrTime : Int) then ScanResult.expired
    else ScanResult.accepted qr

/-- True when the scan reached setScannedData, i.e. was accepted. -/
def accepts (r : ScanResult) : Bool :=
  match r with
  | ScanResult.accepted _ => true
  | _ => false

/-! Firestore model and the session and attendance operations of
src/services/firebase.js.  Collections are association lists keyed by
document id; addDoc appends a fresh key chosen by the environment. -/

/-- One element of the studentsPresent array of an attendance session
document, exactly the object pushed by markAttendance. -/
structure StudentEntry where
  studentId : String
  studentName : String
  markedAt : Nat
  photoUrl : String
  deriving Repr, DecidableEq

/-- The sessionData argument that generateQRCode of QRGenerator.jsx passes
to createAttendanceSession (fields not read by any modelled operation are
omitted). -/
structure SessionCreateData where
  facultyId : String
  schoolId : String
  batchId : String
  subjectId : String
  periods : Nat
  expiresAt : Nat
  deriving Repr, DecidableEq

/-- An attendance_sessions document.  Fields written only later hold
Option values, none standing for an absent field: totalPresent is written
for the first time by markAttendance. -/
structure SessionDoc where
  facultyId : String
  schoolId : String
  batchId : String
  subjectId : String
  periods : Nat
  expiresAt : Nat
  createdAt : Nat
  isActive : Bool
  qrCodeGenerated : Bool
  studentsPresent : List StudentEntry
  totalStudents : Nat
  totalPresent : Option Nat := none
  lastUpdated : Option Nat := none
  deactivatedAt : Option Nat := none
  qrCodeUrl : Option String := none
  deriving Repr, DecidableEq

/-- The attendanceData object built by submitAttendance in QRScanner.jsx
and passed to markAttendance. -/
structure AttendanceData where
  studentId : String
  sessionId : String
  facultyId : String
  school : String
  batch : String
  subject : String
  periods : Nat
  photoUrl : String
  studentName : String
  studentEmail : String
  regNumber : String
  status : String
  deriving Repr, DecidableEq

/-- A document of the attendance collection: the spread attendanceData
plus the timestamp and device info added by markAttendance. -/
structure AttendanceRecord where
  data : AttendanceData
  timestamp : Nat
  deviceInfo : String
  deriving Repr, DecidableEq

/-- The Firestore state touched by the attendance core. -/
structure Store where
  sessions : List (String × SessionDoc)
  attendance : List AttendanceRecord
  deriving Repr, DecidableEq

/-- The value returned by the service functions: success true, or success
false carrying the caught error message. -/
structure OpResult where
  success : Bool
  error : Option String := none
  deriving Repr, DecidableEq

def emptyStore : Store := ⟨[], []⟩

/-- First document stored under a given id in an association list. -/
def lookupSession : List (String × SessionDoc) → String → Option SessionDoc
  | [], _ => none
  | p :: rest, sid => if p.1 = sid then some p.2 else lookupSession rest sid

/-- getDoc on attendance_sessions: the first document stored under the
given id. -/
def getSession (st : Store) (sid : String) : Option SessionDoc :=
  lookupSession st.sessions sid

/-- updateDoc on attendance_sessions: rewrite the document(s) stored under
the given id. -/
def updateSession (st : Store) (sid : String) (f : SessionDoc → SessionDoc) :
    Store :=
  { st with
    sessions := st.sessions.map (fun p => if p.1 = sid then (p.1, f p.2) else p) }

/-- createAttendanceSession from firebase.js: addDoc of the spread
sessionData plus createdAt, isActive true, qrCodeGenerated true, an empty
studentsPresent array and totalStudents 0.  sid is the fresh document id
chosen by the store. -/
def createAttendanceSession (sid : String) (d : SessionCreateData) (now : Nat)
    (st : Store) : OpResult × Store :=
  (⟨true, none⟩,
   { st with
     sessions := st.sessions ++
       [(sid,
         { facultyId := d.facultyId
           schoolId := d.schoolId
           batchId := d.batchId
           subjectId := d.subjectId
           periods := d.periods
           expiresAt := d.expiresAt
           createdAt := now
           isActive := true
           qrCodeGenerated := true
           studentsPresent := []
           totalStudents := 0 })] })

/-- markAttendance from firebase.js.  It first unconditionally addDocs the
attendance record; then, when sessionId is truthy and the session document
exists and the student is not yet in studentsPresent, it pushes the
student onto the read array and writes it back together with totalPresent
set to the new array length.  It returns success true on every path. -/
def markAttendance (d : AttendanceData) (now : Nat) (deviceInfo : String)
    (st : Store) : OpResult × Store :=
  let st1 : Store := { st with attendance := st.attendance ++ [⟨d, now, deviceInfo⟩] }
  if d.sessionId = "" then (⟨true, none⟩, st1)
  else
    match getSession st1 d.sessionId with
    | none => (⟨true, none⟩, st1)
    | some sdoc =>
        if sdoc.studentsPresent.any (fun s => s.studentId = d.studentId) then
          (⟨true, none⟩, st1)
        else
          let sp := sdoc.studentsPresent ++
            [{ studentId := d.studentId
               studentName := d.studentName
               markedAt := now
               photoUrl := d.photoUrl }]
          (⟨true, none⟩,
           updateSession st1 d.sessionId (fun _ =>
             { sdoc with
               studentsPresent := sp
               totalPresent := some sp.length
               lastUpdated := some now }))

/-- deactivateSession from firebase.js: updateDoc setting isActive false
and deactivatedAt; updateDoc on a missing document throws, caught as a
failure result. -/
def deactivateSession (sid : String) (now : Nat) (st : Store) :
    OpResult × Store :=
  match getSession st sid with
  | none => (⟨false, some "No document to update"⟩, st)
  | some _ =>
      (⟨true, none⟩,
       updateSession st sid (fun doc =>
         { doc with isActive := false, deactivatedAt := some now }))

/-- getActiveSessions from firebase.js: over the documents matching
facultyId with isActive true, return those with expiresAt still in the
future and auto-expire the rest by writing isActive false. -/
def getActiveSessions (facultyId : String) (now : Nat) (st : Store) :
    List (String × SessionDoc) × Store :=
  let matched := st.sessions.filter
    (fun p => p.2.facultyId == facultyId && p.2.isActive)
  let live := matched.filter (fun p => now < p.2.expiresAt)
  let st1 : Store :=
    { st with
      sessions := st.sessions.map (fun p =>
        if p.2.facultyId == facultyId && p.2.isActive &&
            !(decide (now < p.2.expiresAt)) then
          (p.1, { p.2 with isActive := false })
        else p) }
  (live, st1)

/-- saveQRCodeToStorage from firebase.js, after a successful upload:
updateDoc writing the QR url and qrCodeGenerated true; a missing document
makes updateDoc throw, caught as a failure. -/
def saveQRCodeToStorage (sid : String) (url : String) (st : Store) :
    OpResult × Store :=
  match getSession st sid with
  | none => (⟨false, some "No document to update"⟩, st)
  | some _ =>
      (⟨true, none⟩,
       updateSession st sid (fun doc =>
         { doc with qrCodeUrl := some url, qrCodeGenerated := true }))

/-- The sessionData built by generateQRCode of QRGenerator.jsx: expiresAt
is the current clock plus 30000 ms. -/
def qrGeneratorSessionData (facultyId schoolId batchId subjectId : String)
    (periods : Nat) (now : Nat) : SessionCreateData :=
  { facultyId := facultyId
    schoolId := schoolId
    batchId := batchId
    subjectId := subjectId
    periods := periods
    expiresAt := now + 30000 }

/-- The studentIds of a session document, in array order. -/
def presentIds (doc : SessionDoc) : List String :=
  doc.studentsPresent.map (fun s => s.studentId)

/-- The read of a possibly absent numeric Firestore field: 0 when absent. -/
def presentCount (doc : SessionDoc) : Nat := doc.totalPresent.getD 0

/-- Aggregate consistency of one session document: the stored present
count agrees with the length of the present-student array. -/
def aggConsistent (doc : SessionDoc) : Prop :=
  presentCount doc = doc.studentsPresent.length

/-! Rotation engine (OfflineQRGenerator.jsx).  Two one-second timers run
while a session is live: the session timer effect counts timeLeft down
from 30 and, on reaching 0, flips isActive off and clears the rotation
interval; the rotation effect counts qrRotationTimer down from 5 and, on
reaching 1, increments totalRotations and issues the payload for the new
rotation index.  The engine state below records both timers, whether the
rotation interval is installed, and the rotation indices issued so far
(rotation 0 is generated synchronously by generateQRCode before the
timers start). -/

structure EngineState where
  isActive : Bool
  timeLeft : Nat
  qrRotationTimer : Nat
  totalRotations : Nat
  rotationInstalled : Bool
  issued : List Nat
  deriving Repr, DecidableEq

/-- The state set up by generateQRCode of OfflineQRGenerator.jsx:
setTimeLeft(30), setQrRotationTimer(5), setTotalRotations(0), the first
payload generated with rotation index 0, then setIsActive(true) which
installs the rotation interval. -/
def engineStart : EngineState :=
  { isActive := true
    timeLeft := 30
    qrRotationTimer := 5
    totalRotations := 0
    rotationInstalled := true
    issued := [0] }

/-- One firing of the session timer effect: while active and timeLeft is
positive the 1 s timeout decrements timeLeft; when timeLeft reaches 0 the
effect body sets isActive false and clears the rotation interval. -/
def sessionTimerTick (s : EngineState) : EngineState :=
  if s.isActive ∧ 0 < s.timeLeft then
    let t := s.timeLeft - 1
    if t = 0 then
      { s with timeLeft := 0, isActive := false, rotationInstalled := false }
    else { s with timeLeft := t }
  else if s.timeLeft = 0 then
    { s with isActive := false, rotationInstalled := false }
  else s

/-- One firing of the rotation interval callback (guarded by isActive and
by the interval still being installed): when the countdown is at 1 or
below, increment totalRotations, issue the payload for the new index and
reset the countdown to 5; otherwise just count down. -/
def rotationTick (s : EngineState) : EngineState :=
  if s.rotationInstalled ∧ s.isActive then
    if s.qrRotationTimer ≤ 1 then
      let n := s.totalRotations + 1
      { s with qrRotationTimer := 5, totalRotations := n, issued := s.issued ++ [n] }
    else { s with qrRotationTimer := s.qrRotationTimer - 1 }
  else s

/-- One second of wall-clock time: the session timer fires (its state
update and effect re-run commit first, cancelling the interval at
expiry), then the rotation interval fires if still installed. -/
def engineTick (s : EngineState) : EngineState :=
  rotationTick (sessionTimerTick s)

/-- The engine state n seconds after generateQRCode activated it. -/
def engineRun : Nat → EngineState
  | 0 => engineStart
  | n + 1 => engineTick (engineRun n)

/-- The session document written back by a first-time markAttendance: the
read studentsPresent array with the student pushed onto it, totalPresent
set to the new array length, and lastUpdated. -/
def markUpdatedDoc (doc : SessionDoc) (d : AttendanceData) (now : Nat) :
    SessionDoc :=
  let sp := doc.studentsPresent ++
    [{ studentId := d.studentId
       studentName := d.studentName
       markedAt := now
       photoUrl := d.photoUrl }]
  { doc with
    studentsPresent := sp
    totalPresent := some sp.length
    lastUpdated := some now }

/-- Engine invariant: the issued rotation indices are exactly
0..totalRotations, and an expired engine has both its active flag and its
rotation interval off. -/
def EngineInv (s : EngineState) : Prop :=
  s.issued = List.range (s.totalRotations + 1) ∧
    (s.timeLeft = 0 → s.isActive = false ∧ s.rotationInstalled = false)

/-- The temporal attributes of a session document, fixed at creation. -/
def temporalOf (doc : SessionDoc) : Nat × Nat := (doc.createdAt, doc.expiresAt)

/-- A sequence of markAttendance submissions, each with its own clock
read, applied in order. -/
def runMarks (dev : String) (ds : List (AttendanceData × Nat)) (st : Store) :
    Store :=
  ds.foldl (fun acc dn => (markAttendance dn.1 dn.2 dev acc).2) st

/-! Concrete data used to evaluate the model on closed inputs. -/

def demoBase : BaseSessionData :=
  offlineBaseSessionData 0 "k7f2p9q1mz3x" "a1b2c3d4" "faculty_1" "sot" "sot24b1" "java" 2

def demoEntropy (t : Nat) : Entropy :=
  { nowMs := t
    micro := 1234
    timeOrigin := 77
    randomSalt := "r4nd0msalt"
    rotationSalt := "r0tsalt"
    rotationIdRand := "idrnd"
    randFloat := "0.42"
    browserEntropy := 450
    memoryUsage := 9000 }

def demoPayload : QRPayload := generateQRWithEntropy demoBase 3 (demoEntropy 10000)

def demoBaseS1 : BaseSessionData := { demoBase with sessionId := "s1" }

def demoBaseGhost : BaseSessionData := { demoBase with sessionId := "ghost" }

def demoCreateData : SessionCreateData :=
  qrGeneratorSessionData "faculty_1" "sot" "sot24b1" "java" 2 0

/-- The document produced by createAttendanceSession for demoCreateData at
clock 0. -/
def demoCreatedDoc : SessionDoc :=
  { facultyId := "faculty_1"
    schoolId := "sot"
    batchId := "sot24b1"
    subjectId := "java"
    periods := 2
    expiresAt := 30000
    createdAt := 0
    isActive := true
    qrCodeGenerated := true
    studentsPresent := []
    totalStudents := 0 }

def demoStore1 : Store := (createAttendanceSession "s1" demoCreateData 0 emptyStore).2

def demoStore2 : Store := (deactivateSession "s1" 10000 demoStore1).2

def demoAttData : AttendanceData :=
  { studentId := "stu1"
    sessionId := "s1"
    facultyId := "faculty_1"
    school := "sot"
    batch := "sot24b1"
    subject := "java"
    periods := 2
    photoUrl := "https://storage/p1.jpg"
    studentName := "Student One"
    studentEmail := "stu1@pwioi.com"
    regNumber := "R001"
    status := "present" }

def demoAttData2 : AttendanceData :=
  { demoAttData with
    studentId := "stu2"
    studentName := "Student Two"
    studentEmail := "stu2@pwioi.com"
    regNumber := "R002" }

def demoMark1 : Store := (markAttendance demoAttData 5000 "ua" demoStore1).2

def demoMark2 : OpResult × Store := markAttendance demoAttData 6000 "ua" demoMark1

/-- The session document stored for s1 after the first demo submission. -/
def demoMark1Doc : SessionDoc := markUpdatedDoc demoCreatedDoc demoAttData 5000

/-! Helper lemmas about the store model. -/

theorem lookupSession_append_of_some {l1 : List (String × SessionDoc)}
    (l2 : List (String × SessionDoc)) {sid : String} {doc : SessionDoc}
    (h : lookupSession l1 sid = some doc) :
    lookupSession (l1 ++ l2) sid = some doc := by
  induction l1 with
  | nil => simp [lookupSession] at h
  | cons p rest ih =>
      by_cases hp : p.1 = sid
      · simp only [lookupSession, hp, if_pos] at h ⊢
        simpa using h
      · simp only [lookupSession, hp, if_neg, List.cons_append, not_false_iff] at h ⊢
        exact ih h

theorem lookupSession_append_of_none {l1 : List (String × SessionDoc)}
    (l2 : List (String × SessionDoc)) {sid : String}
    (h : lookupSession l1 sid = none) :
    lookupSession (l1 ++ l2) sid = lookupSession l2 sid := by
  induction l1 with
  | nil => simp
  | cons p rest ih =>
      by_cases hp : p.1 = sid
      · simp [lookupSession, hp] at h
      · simp only [lookupSession, hp, if_neg, List.cons_append, not_false_iff] at h ⊢
        exact ih h

/-- Effect of updateSession on a lookup: the document under the updated id
is mapped through the update, all other ids are untouched. -/
theorem lookupSession_update (l : List (String × SessionDoc)) (sid sid2 : String)
    (f : SessionDoc → SessionDoc) :
    lookupSession (l.map (fun p => if p.1 = sid then (p.1, f p.2) else p)) sid2 =
      if sid2 = sid then (lookupSession l sid2).map f else lookupSession l sid2 := by
  induction l with
  | nil => simp [lookupSession]
  | cons p rest ih =>
      by_cases h1 : p.1 = sid
      · by_cases h2 : p.1 = sid2
        · have : sid2 = sid := by rw [← h1, h2]
          simp [lookupSession, h1, h2, this]
        · have hne : ¬sid2 = sid := fun hc => h2 (by rw [h1, hc])
          have hne2 : ¬sid = sid2 := fun hc => hne hc.symm
          simp [lookupSession, h1, h2, hne, hne2, ih]
      · by_cases h2 : p.1 = sid2
        · have hne : ¬sid2 = sid := fun hc => h1 (by rw [h2, hc])
          simp [lookupSession, h1, h2, hne]
        · simp [lookupSession, h1, h2, ih]

theorem getSession_updateSession (st : Store) (sid sid2 : String)
    (f : SessionDoc → SessionDoc) :
    getSession (updateSession st sid f) sid2 =
      if sid2 = sid then (getSession st sid2).map f else getSession st sid2 := by
  unfold getSession updateSession
  exact lookupSession_update st.sessions sid sid2 f

/-- Lookup through a value-conditional rewrite of every entry, as
performed by getActiveSessions. -/
theorem lookupSession_map_cond (l : List (String × SessionDoc)) (sid : String)
    (cond : SessionDoc → Bool) (upd : SessionDoc → SessionDoc) :
    lookupSession (l.map (fun p => if cond p.2 then (p.1, upd p.2) else p)) sid =
      (lookupSession l sid).map (fun d => if cond d then upd d else d) := by
  induction l with
  | nil => simp [lookupSession]
  | cons p rest ih =>
      by_cases hc : cond p.2
      · by_cases hp : p.1 = sid
        · simp [lookupSession, hc, hp]
        · simp [lookupSession, hc, hp, ih]
      · by_cases hp : p.1 = sid
        · simp [lookupSession, hc, hp]
        · simp [lookupSession, hc, hp, ih]

theorem getSession_getActiveSessions (st : Store) (facultyId : String)
    (now : Nat) (sid : String) :
    getSession ((getActiveSessions facultyId now st).2) sid =
      (getSession st sid).map (fun d =>
        if d.facultyId == facultyId && d.isActive && !(decide (now < d.expiresAt))
        then { d with isActive := false } else d) := by
  unfold getSession getActiveSessions
  exact lookupSession_map_cond st.sessions sid
    (fun d => d.facultyId == facultyId && d.isActive && !(decide (now < d.expiresAt)))
    (fun d => { d with isActive := false })

theorem anyStudent_iff (l : List StudentEntry) (x : String) :
    (l.any fun s => s.studentId = x) = true ↔ x ∈ l.map (fun s => s.studentId) := by
  simp only [List.any_eq_true, List.mem_map, decide_eq_true_eq]

theorem markAttendance_fst (d : AttendanceData) (now : Nat) (dev : String)
    (st : Store) : (markAttendance d now dev st).1 = ⟨true, none⟩ := by
  unfold markAttendance
  dsimp only
  split
  · rfl
  · split
    · rfl
    · split
      · rfl
      · rfl

theorem markAttendance_attendance (d : AttendanceData) (now : Nat) (dev : String)
    (st : Store) :
    ((markAttendance d now dev st).2).attendance =
      st.attendance ++ [⟨d, now, dev⟩] := by
  unfold markAttendance
  dsimp only
  split
  · rfl
  · split
    · rfl
    · split
      · rfl
      · simp [updateSession]

theorem markAttendance_sessions_of_blank (d : AttendanceData) (now : Nat)
    (dev : String) (st : Store) (hb : d.sessionId = "") :
    ((markAttendance d now dev st).2).sessions = st.sessions := by
  unfold markAttendance
  simp [hb]

theorem markAttendance_sessions_of_absent (d : AttendanceData) (now : Nat)
    (dev : String) (st : Store) (hs : getSession st d.sessionId = none) :
    ((markAttendance d now dev st).2).sessions = st.sessions := by
  unfold markAttendance
  dsimp only
  split
  · rfl
  · have : getSession { st with attendance := st.attendance ++ [⟨d, now, dev⟩] }
        d.sessionId = none := hs
    rw [this]

theorem markAttendance_of_present (d : AttendanceData) (now : Nat)
    (dev : String) (st : Store) (doc : SessionDoc)
    (hs : getSession st d.sessionId = some doc)
    (hp : d.studentId ∈ presentIds doc) :
    ((markAttendance d now dev st).2).sessions = st.sessions := by
  unfold markAttendance
  dsimp only
  split
  · rfl
  · have hs1 : getSession { st with attendance := st.attendance ++ [⟨d, now, dev⟩] }
        d.sessionId = some doc := hs
    rw [hs1]
    have hany : (doc.studentsPresent.any fun s => s.studentId = d.studentId) = true :=
      (anyStudent_iff doc.studentsPresent d.studentId).2 hp
    simp [hany]

theorem markAttendance_of_new (d : AttendanceData) (now : Nat)
    (dev : String) (st : Store) (doc : SessionDoc) (hb : d.sessionId ≠ "")
    (hs : getSession st d.sessionId = some doc)
    (hp : d.studentId ∉ presentIds doc) :
    (markAttendance d now dev st).2 =
      updateSession { st with attendance := st.attendance ++ [⟨d, now, dev⟩] }
        d.sessionId (fun _ => markUpdatedDoc doc d now) := by
  unfold markAttendance
  dsimp only
  rw [if_neg hb]
  have hs1 : getSession { st with attendance := st.attendance ++ [⟨d, now, dev⟩] }
      d.sessionId = some doc := hs
  rw [hs1]
  have hany : (doc.studentsPresent.any fun s => s.studentId = d.studentId) = false := by
    rw [← Bool.not_eq_true]
    intro hc
    exact hp ((anyStudent_iff doc.studentsPresent d.studentId).1 hc)
  simp [hany, markUpdatedDoc]

/-! Engine invariant: the issued rotation indices are exactly 0..totalRotations,
and an expired engine has both its active flag and its rotation interval off. -/

theorem rotationTick_timeLeft (s : EngineState) :
    (rotationTick s).timeLeft = s.timeLeft := by
  unfold rotationTick; split
  · split <;> rfl
  · rfl

theorem rotationTick_isActive (s : EngineState) :
    (rotationTick s).isActive = s.isActive := by
  unfold rotationTick; split
  · split <;> rfl
  · rfl

theorem rotationTick_rotationInstalled (s : EngineState) :
    (rotationTick s).rotationInstalled = s.rotationInstalled := by
  unfold rotationTick; split
  · split <;> rfl
  · rfl

theorem rotationTick_issued (s : EngineState)
    (h : s.issued = List.range (s.totalRotations + 1)) :
    (rotationTick s).issued = List.range ((rotationTick s).totalRotations + 1) := by
  unfold rotationTick
  split
  · split
    · dsimp only
      rw [h, ← List.range_succ]
    · exact h
  · exact h

theorem sessionTimerTick_issued (s : EngineState) :
    (sessionTimerTick s).issued = s.issued := by
  unfold sessionTimerTick; dsimp only; split
  · split <;> rfl
  · split <;> rfl

theorem sessionTimerTick_totalRotations (s : EngineState) :
    (sessionTimerTick s).totalRotations = s.totalRotations := by
  unfold sessionTimerTick; dsimp only; split
  · split <;> rfl
  · split <;> rfl

theorem sessionTimerTick_expired (s : EngineState)
    (h0 : (sessionTimerTick s).timeLeft = 0) :
    (sessionTimerTick s).isActive = false ∧
      (sessionTimerTick s).rotationInstalled = false := by
  unfold sessionTimerTick at h0 ⊢
  by_cases hg : s.isActive ∧ 0 < s.timeLeft
  · rw [if_pos hg] at h0 ⊢
    by_cases hz : s.timeLeft - 1 = 0
    · rw [if_pos hz]
      exact ⟨rfl, rfl⟩
    · rw [if_neg hz] at h0
      exact absurd h0 hz
  · rw [if_neg hg] at h0 ⊢
    by_cases hz : s.timeLeft = 0
    · rw [if_pos hz]
      exact ⟨rfl, rfl⟩
    · rw [if_neg hz] at h0
      exact absurd h0 hz

theorem engineInv_start : EngineInv engineStart := by
  unfold EngineInv
  exact ⟨by decide, by decide⟩

theorem engineInv_tick (s : EngineState) (h : EngineInv s) :
    EngineInv (engineTick s) := by
  obtain ⟨h1, _⟩ := h
  unfold engineTick
  constructor
  · apply rotationTick_issued
    rw [sessionTimerTick_issued, sessionTimerTick_totalRotations]
    exact h1
  · intro h0
    rw [rotationTick_timeLeft] at h0
    rw [rotationTick_isActive, rotationTick_rotationInstalled]
    exact sessionTimerTick_expired s h0

theorem engineRun_inv (n : Nat) : EngineInv (engineRun n) := by
  induction n with
  | zero => exact engineInv_start
  | succ k ih => exact engineInv_tick (engineRun k) ih

theorem engineTick_expired_fix (s : EngineState) (h0 : s.timeLeft = 0)
    (ha : s.isActive = false) (hr : s.rotationInstalled = false) :
    engineTick s = s := by
  cases s
  simp_all [engineTick, sessionTimerTick, rotationTick]

theorem engineRun_stable {n m : Nat} (hm : n ≤ m)
    (h0 : (engineRun n).timeLeft = 0) : engineRun m = engineRun n := by
  induction m, hm using Nat.le_induction with
  | base => rfl
  | succ k _ ih =>
      have hinv := (engineRun_inv n).2 h0
      show engineTick (engineRun k) = engineRun n
      rw [ih]
      exact engineTick_expired_fix (engineRun n) h0 hinv.1 hinv.2

/-! Helper lemmas about the scanner on generated payloads. -/

@[simp] theorem generateQR_sessionId (base : BaseSessionData) (i : Nat)
    (e : Entropy) : (generateQRWithEntropy base i e).sessionId = base.sessionId := rfl

@[simp] theorem generateQR_facultyId (base : BaseSessionData) (i : Nat)
    (e : Entropy) : (generateQRWithEntropy base i e).facultyId = base.facultyId := rfl

@[simp] theorem generateQR_timestamp (base : BaseSessionData) (i : Nat)
    (e : Entropy) : (generateQRWithEntropy base i e).timestamp = some e.nowMs := rfl

@[simp] theorem generateQR_rotationIndex (base : BaseSessionData) (i : Nat)
    (e : Entropy) : (generateQRWithEntropy base i e).rotationIndex = i := rfl

/-- A generated payload with a non-blank session and faculty id passes the
scanner whenever at most 30000 ms have elapsed since its own timestamp. -/
theorem scan_generated_accepted (base : BaseSessionData) (i : Nat) (e : Entropy)
    (now : Nat) (h1 : base.sessionId ≠ "") (h2 : base.facultyId ≠ "")
    (h3 : (now : Int) - (e.nowMs : Int) ≤ 30000) :
    onScanSuccess (generateQRWithEntropy base i e) now =
      ScanResult.accepted (generateQRWithEntropy base i e) := by
  unfold onScanSuccess
  rw [generateQR_sessionId, generateQR_facultyId, generateQR_timestamp]
  rw [if_neg (by simp [h1, h2])]
  simp only [Option.getD_some]
  rw [if_neg (not_lt.mpr h3)]

/-- A generated payload older than 30000 ms is rejected as expired. -/
theorem scan_generated_expired (base : BaseSessionData) (i : Nat) (e : Entropy)
    (now : Nat) (h1 : base.sessionId ≠ "") (h2 : base.facultyId ≠ "")
    (h3 : (30000 : Int) < (now : Int) - (e.nowMs : Int)) :
    onScanSuccess (generateQRWithEntropy base i e) now = ScanResult.expired := by
  unfold onScanSuccess
  rw [generateQR_sessionId, generateQR_facultyId, generateQR_timestamp]
  rw [if_neg (by simp [h1, h2])]
  simp only [Option.getD_some]
  rw [if_pos h3]

/-- C2 counterexample: a session created at 0 ms with expiresAt 30000 ms;
the payload of its final rotation carries timestamp 25000 ms, and a scan
at 31000 ms, i.e. at or after the session expiration time, is accepted by
onScanSuccess rather than rejected as expired. -/
theorem scan_after_session_expiry_accepted_cex :
    demoBase.generatedAt = 0 ∧ demoBase.expiresAt = 30000 ∧
    demoBase.expiresAt ≤ 31000 ∧
    (generateQRWithEntropy demoBase 5 (demoEntropy 25000)).timestamp = some 25000 ∧
    onScanSuccess (generateQRWithEntropy demoBase 5 (demoEntropy 25000)) 31000 =
      ScanResult.accepted (generateQRWithEntropy demoBase 5 (demoEntropy 25000)) := by
  decide

/-- C2 (amended): the scanner enforces no session-level expiration; a scan
is rejected as expired exactly when more than 30 s have elapsed since the
scanned payload's own issuance timestamp, so a fresh final-rotation
payload is still accepted at or after creationTime + lifetime. -/
theorem scan_expiry_is_payload_relative (base : BaseSessionData) (i : Nat)
    (e : Entropy) (now : Nat) (h1 : base.sessionId ≠ "") (h2 : base.facultyId ≠ "") :
    (((now : Int) - (e.nowMs : Int) ≤ 30000 →
        onScanSuccess (generateQRWithEntropy base i e) now =
          ScanResult.accepted (generateQRWithEntropy base i e)) ∧
     ((30000 : Int) < (now : Int) - (e.nowMs : Int) →
        onScanSuccess (generateQRWithEntropy base i e) now = ScanResult.expired)) :=
  ⟨fun h3 => scan_generated_accepted base i e now h1 h2 h3,
   fun h3 => scan_generated_expired base i e now h1 h2 h3⟩

/-- Witness for scan_expiry_is_payload_relative at concrete inputs: the
session expires at 30000 ms, yet the 25000 ms payload is accepted at
31000 ms; the 0 ms payload is expired at 55001 ms. -/
theorem scan_expiry_is_payload_relative_witness :
    onScanSuccess (generateQRWithEntropy demoBase 5 (demoEntropy 25000)) 31000 =
      ScanResult.accepted (generateQRWithEntropy demoBase 5 (demoEntropy 25000)) ∧
    onScanSuccess (generateQRWithEntropy demoBase 0 (demoEntropy 0)) 55001 =
      ScanResult.expired :=
  ⟨(scan_expiry_is_payload_relative demoBase 5 (demoEntropy 25000) 31000
      (by decide) (by decide)).1 (by decide),
   (scan_expiry_is_payload_relative demoBase 0 (demoEntropy 0) 55001
      (by decide) (by decide)).2 (by decide)⟩

/-- C3 counterexample: six seconds in, the engine has advanced to rotation
index 1, yet the rotation-0 payload issued at 0 ms is still accepted by
the scan at 6000 ms instead of being rejected as stale (no StalePayload
outcome exists in the scanner). -/
theorem stale_rotation_scan_accepted_cex :
    (engineRun 6).totalRotations = 1 ∧
    (generateQRWithEntropy demoBase 0 (demoEntropy 0)).rotationIndex = 0 ∧
    (generateQRWithEntropy demoBase 0 (demoEntropy 0)).rotationIndex <
      (engineRun 6).totalRotations ∧
    accepts (onScanSuccess (generateQRWithEntropy demoBase 0 (demoEntropy 0)) 6000) =
      true := by
  decide

/-- C3 (amended): the scanner never compares the payload rotation index
with the session's current rotation index; its verdict is entirely
independent of the rotation index carried by the payload. -/
theorem scan_ignores_rotationIndex (base : BaseSessionData) (e : Entropy)
    (i j : Nat) (now : Nat) :
    accepts (onScanSuccess (generateQRWithEntropy base i e) now) =
      accepts (onScanSuccess (generateQRWithEntropy base j e) now) := by
  unfold onScanSuccess
  rw [generateQR_sessionId, generateQR_facultyId, generateQR_timestamp,
    generateQR_sessionId, generateQR_facultyId, generateQR_timestamp]
  split
  · rfl
  · simp only [Option.getD_some]
    split
    · rfl
    · rfl

/-- C4 counterexample: a previously valid payload stays accepted after
mutating its nonce (randomSalt), its rotation index, or its session id;
the scanner never recomputes or compares the checksum.  (The embedded
checksum itself is btoa(...) truncated to 12 characters, which covers
only the first 9 bytes of the underscore-joined input, i.e. a prefix of
the session id, so it would not witness these mutations anyway.) -/
theorem tampered_payload_scan_accepted_cex :
    accepts (onScanSuccess demoPayload 12000) = true ∧
    accepts (onScanSuccess { demoPayload with randomSalt := "evil" } 12000) = true ∧
    accepts (onScanSuccess { demoPayload with rotationIndex := 99 } 12000) = true ∧
    accepts (onScanSuccess { demoPayload with sessionId := "session_forged" } 12000) =
      true := by
  decide

/-- C4 (amended): the scanner never recomputes the checksum; mutating the
nonce, rotation index or checksum of a payload leaves the scan verdict
unchanged, and so does replacing the session id by any other non-blank
one. -/
theorem scan_ignores_checksum_fields (qr : QRPayload) (now : Nat)
    (salt ck : String) (i : Nat) :
    (accepts (onScanSuccess
        { qr with randomSalt := salt, rotationIndex := i, checksum := ck } now) =
      accepts (onScanSuccess qr now)) ∧
    (∀ sid2 : String, qr.sessionId ≠ "" → sid2 ≠ "" →
      accepts (onScanSuccess { qr with sessionId := sid2 } now) =
        accepts (onScanSuccess qr now)) := by
  constructor
  · unfold onScanSuccess
    dsimp only
    split
    · rfl
    · split
      · rfl
      · rfl
  · intro sid2 hq hs
    unfold onScanSuccess
    dsimp only
    simp only [hq, hs, false_or]
    split
    · rfl
    · split
      · rfl
      · rfl

/-- Witness for scan_ignores_checksum_fields at concrete inputs. -/
theorem scan_ignores_checksum_fields_witness :
    (accepts (onScanSuccess
        { demoPayload with randomSalt := "x", rotationIndex := 7, checksum := "y" }
        11000) =
      accepts (onScanSuccess demoPayload 11000)) ∧
    (accepts (onScanSuccess { demoPayload with sessionId := "other" } 11000) =
      accepts (onScanSuccess demoPayload 11000)) :=
  ⟨(scan_ignores_checksum_fields demoPayload 11000 "x" "y" 7).1,
   (scan_ignores_checksum_fields demoPayload 11000 "x" "y" 7).2 "other"
     (by decide) (by decide)⟩

/-- C5 counterexample: the scanner consults no session store.  After the
creator deactivates session s1 at 10000 ms the stored document carries
isActive false, yet a fresh payload for s1 is accepted at 12000 ms; a
payload for an id stored nowhere is accepted as well, with no
UnknownSession or SessionExpired outcome. -/
theorem scan_ignores_session_store_cex :
    (getSession demoStore2 "s1").map (fun doc => doc.isActive) = some false ∧
    accepts (onScanSuccess (generateQRWithEntropy demoBaseS1 2 (demoEntropy 11000))
        12000) = true ∧
    getSession demoStore2 "ghost" = none ∧
    accepts (onScanSuccess (generateQRWithEntropy demoBaseGhost 0 (demoEntropy 11000))
        12000) = true := by
  decide

/-- C5 (amended): deactivateSession records isActive false on the stored
session, but the scan decision reads only the payload itself: any
generated payload with non-blank ids and age at most 30 s is accepted,
whatever the session store holds for its session id. -/
theorem deactivate_sets_inactive_scan_unaffected :
    (∀ (st : Store) (sid : String) (tnow : Nat) (doc : SessionDoc),
        getSession st sid = some doc →
        (getSession ((deactivateSession sid tnow st).2) sid).map
            (fun d => d.isActive) = some false) ∧
    (∀ (base : BaseSessionData) (i : Nat) (e : Entropy) (now : Nat),
        base.sessionId ≠ "" → base.facultyId ≠ "" →
        (now : Int) - (e.nowMs : Int) ≤ 30000 →
        accepts (onScanSuccess (generateQRWithEntropy base i e) now) = true) := by
  constructor
  · intro st sid tnow doc hs
    unfold deactivateSession
    rw [hs]
    dsimp only
    rw [getSession_updateSession, if_pos rfl, hs]
    rfl
  · intro base i e now h1 h2 h3
    rw [scan_generated_accepted base i e now h1 h2 h3]
    rfl

/-- Witness for deactivate_sets_inactive_scan_unaffected at concrete
inputs. -/
theorem deactivate_sets_inactive_scan_unaffected_witness :
    (getSession ((deactivateSession "s1" 10000 demoStore1).2) "s1").map
        (fun d => d.isActive) = some false ∧
    accepts (onScanSuccess (generateQRWithEntropy demoBaseS1 2 (demoEntropy 11000))
        12000) = true :=
  ⟨deactivate_sets_inactive_scan_unaffected.1 demoStore1 "s1" 10000 demoCreatedDoc
      (by decide),
   deactivate_sets_inactive_scan_unaffected.2 demoBaseS1 2 (demoEntropy 11000) 12000
      (by decide) (by decide) (by decide)⟩

/-! Results of a single markAttendance on the written-back document. -/

theorem presentIds_markUpdatedDoc (doc : SessionDoc) (d : AttendanceData)
    (now : Nat) :
    presentIds (markUpdatedDoc doc d now) = presentIds doc ++ [d.studentId] := by
  simp [markUpdatedDoc, presentIds]

theorem presentCount_markUpdatedDoc (doc : SessionDoc) (d : AttendanceData)
    (now : Nat) :
    presentCount (markUpdatedDoc doc d now) = doc.studentsPresent.length + 1 := by
  simp [markUpdatedDoc, presentCount]

theorem aggConsistent_markUpdatedDoc (doc : SessionDoc) (d : AttendanceData)
    (now : Nat) : aggConsistent (markUpdatedDoc doc d now) := by
  simp [markUpdatedDoc, aggConsistent, presentCount]

/-- C7: the engine issues rotation indices 0, 1, 2, ... increasing by
exactly one per rotation, with no index skipped or reused (the issued
list is exactly the range 0..totalRotations), and once the lifetime
countdown has reached 0 the engine is inactive, its rotation interval is
cancelled, and no later second issues any further rotation. -/
theorem rotation_indices_monotone (n : Nat) :
    (engineRun n).issued = List.range ((engineRun n).totalRotations + 1) ∧
    ((engineRun n).timeLeft = 0 →
      (engineRun n).isActive = false ∧ (engineRun n).rotationInstalled = false ∧
      ∀ m, n ≤ m → (engineRun m).issued = (engineRun n).issued) :=
  ⟨(engineRun_inv n).1,
   fun h0 =>
     ⟨((engineRun_inv n).2 h0).1, ((engineRun_inv n).2 h0).2,
      fun _ hm => by rw [engineRun_stable hm h0]⟩⟩

set_option maxRecDepth 4000 in
/-- Witness for rotation_indices_monotone at the 30 s mark: the session
has expired, five rotations were issued after the initial one, and the
issued indices are frozen from then on. -/
theorem rotation_indices_monotone_witness :
    (engineRun 30).issued = List.range ((engineRun 30).totalRotations + 1) ∧
    (engineRun 30).isActive = false ∧ (engineRun 30).rotationInstalled = false ∧
    (engineRun 35).issued = (engineRun 30).issued :=
  ⟨(rotation_indices_monotone 30).1,
   ((rotation_indices_monotone 30).2 (by decide)).1,
   ((rotation_indices_monotone 30).2 (by decide)).2.1,
   ((rotation_indices_monotone 30).2 (by decide)).2.2 35 (by decide)⟩

/-- C10: markAttendance appends the attendance record unconditionally and
returns success true; when the sessionId matches no session document the
record is still written and the sessions are untouched, and when the
student is already in studentsPresent the call leaves the sessions
untouched and returns the very same success value, with no distinct
already-recorded indication. -/
theorem markAttendance_unconditional_write :
    (∀ (d : AttendanceData) (tnow : Nat) (dev : String) (st : Store),
        ((markAttendance d tnow dev st).2).attendance =
          st.attendance ++ [⟨d, tnow, dev⟩] ∧
        (markAttendance d tnow dev st).1 = ⟨true, none⟩) ∧
    (∀ (d : AttendanceData) (tnow : Nat) (dev : String) (st : Store),
        getSession st d.sessionId = none →
        ((markAttendance d tnow dev st).2).sessions = st.sessions) ∧
    (∀ (d : AttendanceData) (tnow : Nat) (dev : String) (st : Store)
        (doc : SessionDoc),
        getSession st d.sessionId = some doc → d.studentId ∈ presentIds doc →
        ((markAttendance d tnow dev st).2).sessions = st.sessions ∧
        (markAttendance d tnow dev st).1 = ⟨true, none⟩) :=
  ⟨fun d tnow dev st =>
      ⟨markAttendance_attendance d tnow dev st, markAttendance_fst d tnow dev st⟩,
   fun d tnow dev st h => markAttendance_sessions_of_absent d tnow dev st h,
   fun d tnow dev st doc hs hp =>
      ⟨markAttendance_of_present d tnow dev st doc hs hp,
       markAttendance_fst d tnow dev st⟩⟩

/-- Witness for markAttendance_unconditional_write: a submission against a
session id stored nowhere still appends its record and succeeds, and a
repeat submission of an already-present student succeeds identically. -/
theorem markAttendance_unconditional_write_witness :
    ((markAttendance { demoAttData with sessionId := "ghost" } 5000 "ua"
        demoStore1).2).sessions = demoStore1.sessions ∧
    ((markAttendance { demoAttData with sessionId := "ghost" } 5000 "ua"
        demoStore1).2).attendance =
      demoStore1.attendance ++ [⟨{ demoAttData with sessionId := "ghost" }, 5000, "ua"⟩] ∧
    ((markAttendance demoAttData 6000 "ua" demoMark1).2).sessions =
      demoMark1.sessions ∧
    (markAttendance demoAttData 6000 "ua" demoMark1).1 = ⟨true, none⟩ :=
  ⟨markAttendance_unconditional_write.2.1 { demoAttData with sessionId := "ghost" }
      5000 "ua" demoStore1 (by decide),
   (markAttendance_unconditional_write.1 { demoAttData with sessionId := "ghost" }
      5000 "ua" demoStore1).1,
   (markAttendance_unconditional_write.2.2 demoAttData 6000 "ua" demoMark1
      demoMark1Doc (by decide) (by decide)).1,
   (markAttendance_unconditional_write.2.2 demoAttData 6000 "ua" demoMark1
      demoMark1Doc (by decide) (by decide)).2⟩

/-- C1 counterexample: submitting the same (session s1, student stu1) pair
twice leaves two records for the pair in the attendance collection, and
the second call returns the plain success value (there is no
AlreadyRecorded outcome); only the session aggregate stays at one
entry. -/
theorem markAttendance_duplicate_pair_cex :
    ((demoMark2.2).attendance.filter
        (fun r => r.data.sessionId == "s1" && r.data.studentId == "stu1")).length = 2 ∧
    demoMark2.1 = ⟨true, none⟩ ∧
    (getSession demoMark2.2 "s1").map presentIds = some ["stu1"] ∧
    (getSession demoMark2.2 "s1").map presentCount = some 1 := by
  decide

/-- C1 (amended): a second markAttendance call for the same (sessionId,
studentId) pair appends a second attendance record and returns the same
success value as the first call (no AlreadyRecorded outcome exists); it
does not touch the session aggregate, which keeps exactly one
studentsPresent entry for the student and an unchanged totalPresent. -/
theorem markAttendance_second_call_appends_record
    (d : AttendanceData) (n1 n2 : Nat) (dev1 dev2 : String) (st : Store)
    (doc : SessionDoc) (hb : d.sessionId ≠ "")
    (hs : getSession st d.sessionId = some doc)
    (hp : d.studentId ∉ presentIds doc) :
    (markAttendance d n1 dev1 st).1 = ⟨true, none⟩ ∧
    (markAttendance d n2 dev2 (markAttendance d n1 dev1 st).2).1 = ⟨true, none⟩ ∧
    ((markAttendance d n2 dev2 (markAttendance d n1 dev1 st).2).2).attendance =
      st.attendance ++ [⟨d, n1, dev1⟩, ⟨d, n2, dev2⟩] ∧
    ((markAttendance d n2 dev2 (markAttendance d n1 dev1 st).2).2).sessions =
      ((markAttendance d n1 dev1 st).2).sessions ∧
    (getSession (markAttendance d n2 dev2 (markAttendance d n1 dev1 st).2).2
        d.sessionId).map presentIds = some (presentIds doc ++ [d.studentId]) ∧
    (getSession (markAttendance d n2 dev2 (markAttendance d n1 dev1 st).2).2
        d.sessionId).map presentCount = some (doc.studentsPresent.length + 1) := by
  have h1 := markAttendance_of_new d n1 dev1 st doc hb hs hp
  have hg1 : getSession (markAttendance d n1 dev1 st).2 d.sessionId =
      some (markUpdatedDoc doc d n1) := by
    rw [h1, getSession_updateSession, if_pos rfl]
    have hs1 : getSession { st with attendance := st.attendance ++ [⟨d, n1, dev1⟩] }
        d.sessionId = some doc := hs
    rw [hs1]
    rfl
  have hpresent : d.studentId ∈ presentIds (markUpdatedDoc doc d n1) := by
    rw [presentIds_markUpdatedDoc]
    simp
  have h2 := markAttendance_of_present d n2 dev2 (markAttendance d n1 dev1 st).2
      (markUpdatedDoc doc d n1) hg1 hpresent
  have hg2 : getSession (markAttendance d n2 dev2 (markAttendance d n1 dev1 st).2).2
      d.sessionId = some (markUpdatedDoc doc d n1) := by
    unfold getSession
    rw [h2]
    exact hg1
  refine ⟨markAttendance_fst d n1 dev1 st,
    markAttendance_fst d n2 dev2 (markAttendance d n1 dev1 st).2, ?_, h2, ?_, ?_⟩
  · rw [markAttendance_attendance, markAttendance_attendance]
    simp
  · rw [hg2]
    rw [Option.map_some']
    rw [presentIds_markUpdatedDoc]
  · rw [hg2]
    rw [Option.map_some']
    rw [presentCount_markUpdatedDoc]

/-- Witness for markAttendance_second_call_appends_record at the demo
store. -/
theorem markAttendance_second_call_appends_record_witness :
    (markAttendance demoAttData 5000 "ua" demoStore1).1 = ⟨true, none⟩ ∧
    (markAttendance demoAttData 6000 "ua"
        (markAttendance demoAttData 5000 "ua" demoStore1).2).1 = ⟨true, none⟩ ∧
    ((markAttendance demoAttData 6000 "ua"
        (markAttendance demoAttData 5000 "ua" demoStore1).2).2).attendance =
      demoStore1.attendance ++ [⟨demoAttData, 5000, "ua"⟩, ⟨demoAttData, 6000, "ua"⟩] ∧
    ((markAttendance demoAttData 6000 "ua"
        (markAttendance demoAttData 5000 "ua" demoStore1).2).2).sessions =
      ((markAttendance demoAttData 5000 "ua" demoStore1).2).sessions ∧
    (getSession (markAttendance demoAttData 6000 "ua"
        (markAttendance demoAttData 5000 "ua" demoStore1).2).2
        demoAttData.sessionId).map presentIds =
      some (presentIds demoCreatedDoc ++ ["stu1"]) ∧
    (getSession (markAttendance demoAttData 6000 "ua"
        (markAttendance demoAttData 5000 "ua" demoStore1).2).2
        demoAttData.sessionId).map presentCount =
      some (demoCreatedDoc.studentsPresent.length + 1) :=
  markAttendance_second_call_appends_record demoAttData 5000 6000 "ua" "ua"
    demoStore1 demoCreatedDoc (by decide) (by decide) (by decide)

/-- Running a batch of first-time submissions for one session appends each
student once, in order, and keeps the stored present count equal to the
array length. -/
theorem runMarks_spec (dev : String) (ds : List (AttendanceData × Nat)) :
    ∀ (st : Store) (sid : String) (doc : SessionDoc),
      sid ≠ "" →
      getSession st sid = some doc →
      (∀ p ∈ ds, p.1.sessionId = sid) →
      (ds.map (fun p => p.1.studentId)).Nodup →
      (∀ p ∈ ds, p.1.studentId ∉ presentIds doc) →
      aggConsistent doc →
      ∃ doc2, getSession (runMarks dev ds st) sid = some doc2 ∧
        presentIds doc2 = presentIds doc ++ ds.map (fun p => p.1.studentId) ∧
        aggConsistent doc2 := by
  induction ds with
  | nil =>
      intro st sid doc _ hs _ _ _ hc
      exact ⟨doc, hs, by simp, hc⟩
  | cons hd tl ih =>
      intro st sid doc hb hs hall hnd hnp hc
      obtain ⟨d, n⟩ := hd
      have hsid : d.sessionId = sid := hall (d, n) (List.mem_cons_self _ _)
      have hdnp : d.studentId ∉ presentIds doc := hnp (d, n) (List.mem_cons_self _ _)
      have hb2 : d.sessionId ≠ "" := by rw [hsid]; exact hb
      have hs2 : getSession st d.sessionId = some doc := by rw [hsid]; exact hs
      have hstep := markAttendance_of_new d n dev st doc hb2 hs2 hdnp
      have hg : getSession (markAttendance d n dev st).2 sid =
          some (markUpdatedDoc doc d n) := by
        rw [hstep, ← hsid, getSession_updateSession, if_pos rfl]
        have hs1 : getSession { st with attendance := st.attendance ++ [⟨d, n, dev⟩] }
            d.sessionId = some doc := hs2
        rw [hs1]
        rfl
      have hndtl : d.studentId ∉ tl.map (fun p => p.1.studentId) ∧
          (tl.map (fun p => p.1.studentId)).Nodup := List.nodup_cons.mp hnd
      have hnp2 : ∀ p ∈ tl, p.1.studentId ∉ presentIds (markUpdatedDoc doc d n) := by
        intro p hp
        have hmem1 : p.1.studentId ∉ presentIds doc :=
          hnp p (List.mem_cons_of_mem _ hp)
        have hmem2 : p.1.studentId ≠ d.studentId := by
          intro hcontra
          apply hndtl.1
          rw [← hcontra]
          exact List.mem_map_of_mem (fun q => q.1.studentId) hp
        rw [presentIds_markUpdatedDoc]
        simp [hmem1, hmem2]
      have hall2 : ∀ p ∈ tl, p.1.sessionId = sid :=
        fun p hp => hall p (List.mem_cons_of_mem _ hp)
      obtain ⟨doc2, hg2, hpids, hc3⟩ :=
        ih (markAttendance d n dev st).2 sid (markUpdatedDoc doc d n) hb hg hall2
          hndtl.2 hnp2 (aggConsistent_markUpdatedDoc doc d n)
      refine ⟨doc2, hg2, ?_, hc3⟩
      rw [hpids, presentIds_markUpdatedDoc]
      simp

/-- C6: markAttendance preserves totalPresent = length of studentsPresent
on every stored session, and after N distinct students submit against a
freshly created session its present-student array lists exactly those N
students and the stored present count is N. -/
theorem aggregate_consistency :
    (∀ (d : AttendanceData) (tnow : Nat) (dev : String) (st : Store),
        (∀ sid0 doc0, getSession st sid0 = some doc0 → aggConsistent doc0) →
        ∀ sid doc2, getSession ((markAttendance d tnow dev st).2) sid = some doc2 →
          aggConsistent doc2) ∧
    (∀ (cd : SessionCreateData) (tnow : Nat) (sid : String) (st : Store)
        (dev : String) (ds : List (AttendanceData × Nat)),
        sid ≠ "" → getSession st sid = none →
        (∀ p ∈ ds, p.1.sessionId = sid) →
        (ds.map (fun p => p.1.studentId)).Nodup →
        ∃ doc2,
          getSession (runMarks dev ds ((createAttendanceSession sid cd tnow st).2))
              sid = some doc2 ∧
          presentIds doc2 = ds.map (fun p => p.1.studentId) ∧
          doc2.studentsPresent.length = ds.length ∧
          presentCount doc2 = ds.length) := by
  constructor
  · intro d tnow dev st hinv sid doc2 hget
    by_cases hb : d.sessionId = ""
    · have hsame : getSession ((markAttendance d tnow dev st).2) sid =
          getSession st sid := by
        unfold getSession
        rw [markAttendance_sessions_of_blank d tnow dev st hb]
      rw [hsame] at hget
      exact hinv sid doc2 hget
    · cases hmatch : getSession st d.sessionId with
      | none =>
          have hsame : getSession ((markAttendance d tnow dev st).2) sid =
              getSession st sid := by
            unfold getSession
            rw [markAttendance_sessions_of_absent d tnow dev st hmatch]
          rw [hsame] at hget
          exact hinv sid doc2 hget
      | some doc =>
          by_cases hp : d.studentId ∈ presentIds doc
          · have hsame : getSession ((markAttendance d tnow dev st).2) sid =
                getSession st sid := by
              unfold getSession
              rw [markAttendance_of_present d tnow dev st doc hmatch hp]
            rw [hsame] at hget
            exact hinv sid doc2 hget
          · rw [markAttendance_of_new d tnow dev st doc hb hmatch hp,
              getSession_updateSession] at hget
            by_cases hsid : sid = d.sessionId
            · rw [if_pos hsid] at hget
              have hs1 : getSession
                  { st with attendance := st.attendance ++ [⟨d, tnow, dev⟩] } sid =
                  some doc := by
                rw [hsid]; exact hmatch
              rw [hs1, Option.map_some'] at hget
              have : doc2 = markUpdatedDoc doc d tnow := (Option.some.injEq _ _ ▸ hget).symm
              rw [this]
              exact aggConsistent_markUpdatedDoc doc d tnow
            · rw [if_neg hsid] at hget
              exact hinv sid doc2 hget
  · intro cd tnow sid st dev ds hb hnone hall hnd
    have hcreated : getSession ((createAttendanceSession sid cd tnow st).2) sid =
        some { facultyId := cd.facultyId, schoolId := cd.schoolId,
               batchId := cd.batchId, subjectId := cd.subjectId,
               periods := cd.periods, expiresAt := cd.expiresAt,
               createdAt := tnow, isActive := true, qrCodeGenerated := true,
               studentsPresent := [], totalStudents := 0 } := by
      unfold createAttendanceSession getSession
      dsimp only
      rw [lookupSession_append_of_none _ hnone]
      simp [lookupSession]
    obtain ⟨doc2, hg, hpids, hc⟩ :=
      runMarks_spec dev ds ((createAttendanceSession sid cd tnow st).2) sid _ hb
        hcreated hall hnd (fun p _ => by simp [presentIds])
        (by simp [aggConsistent, presentCount])
    have hpids2 : presentIds doc2 = ds.map (fun p => p.1.studentId) := by
      rw [hpids]
      simp [presentIds]
    have hlen : doc2.studentsPresent.length = ds.length := by
      have hmap := congrArg List.length hpids2
      simpa [presentIds] using hmap
    exact ⟨doc2, hg, hpids2, hlen, by rw [hc, hlen]⟩

/-- Witness for aggregate_consistency: two distinct demo students submit
against a fresh session; the stored array lists both and the count is 2. -/
theorem aggregate_consistency_witness :
    ∃ doc2,
      getSession (runMarks "ua" [(demoAttData, 5000), (demoAttData2, 6000)]
          ((createAttendanceSession "s1" demoCreateData 0 emptyStore).2)) "s1" =
        some doc2 ∧
      presentIds doc2 =
        [(demoAttData, 5000), (demoAttData2, 6000)].map (fun p => p.1.studentId) ∧
      doc2.studentsPresent.length = 2 ∧
      presentCount doc2 = 2 :=
  aggregate_consistency.2 demoCreateData 0 "s1" emptyStore "ua"
    [(demoAttData, 5000), (demoAttData2, 6000)] (by decide) (by decide)
    (by decide) (by decide)

/-- C8: a session produced through the QRGenerator path is created active,
with an empty present-student array, a zero present count, and an
expiration time fixed to creation time + 30000 ms; and no modelled store
operation (markAttendance, deactivateSession, getActiveSessions,
saveQRCodeToStorage) ever changes the createdAt or expiresAt of any
stored session. -/
theorem session_created_active_expiry_fixed :
    (∀ (fid scl bat sub : String) (per tnow : Nat) (sid : String) (st : Store),
        getSession st sid = none →
        ∃ doc, getSession ((createAttendanceSession sid
              (qrGeneratorSessionData fid scl bat sub per tnow) tnow st).2) sid =
            some doc ∧
          doc.isActive = true ∧ doc.studentsPresent = [] ∧ presentCount doc = 0 ∧
          doc.totalStudents = 0 ∧ doc.expiresAt = doc.createdAt + 30000) ∧
    (∀ (d : AttendanceData) (tnow : Nat) (dev : String) (st : Store) (sid : String),
        (getSession ((markAttendance d tnow dev st).2) sid).map temporalOf =
          (getSession st sid).map temporalOf) ∧
    (∀ (sid2 : String) (tnow : Nat) (st : Store) (sid : String),
        (getSession ((deactivateSession sid2 tnow st).2) sid).map temporalOf =
          (getSession st sid).map temporalOf) ∧
    (∀ (fid : String) (tnow : Nat) (st : Store) (sid : String),
        (getSession ((getActiveSessions fid tnow st).2) sid).map temporalOf =
          (getSession st sid).map temporalOf) ∧
    (∀ (sid2 url : String) (st : Store) (sid : String),
        (getSession ((saveQRCodeToStorage sid2 url st).2) sid).map temporalOf =
          (getSession st sid).map temporalOf) := by
  refine ⟨?_, ?_, ?_, ?_, ?_⟩
  · intro fid scl bat sub per tnow sid st hnone
    refine ⟨{ facultyId := fid, schoolId := scl, batchId := bat, subjectId := sub,
              periods := per, expiresAt := tnow + 30000, createdAt := tnow,
              isActive := true, qrCodeGenerated := true, studentsPresent := [],
              totalStudents := 0 }, ?_, rfl, rfl, rfl, rfl, rfl⟩
    unfold createAttendanceSession getSession qrGeneratorSessionData
    dsimp only
    rw [lookupSession_append_of_none _ hnone]
    simp [lookupSession]
  · intro d tnow dev st sid
    by_cases hb : d.sessionId = ""
    · unfold getSession
      rw [markAttendance_sessions_of_blank d tnow dev st hb]
    · cases hmatch : getSession st d.sessionId with
      | none =>
          unfold getSession
          rw [markAttendance_sessions_of_absent d tnow dev st hmatch]
      | some doc =>
          by_cases hp : d.studentId ∈ presentIds doc
          · unfold getSession
            rw [markAttendance_of_present d tnow dev st doc hmatch hp]
          · rw [markAttendance_of_new d tnow dev st doc hb hmatch hp,
              getSession_updateSession]
            by_cases hsid : sid = d.sessionId
            · rw [if_pos hsid]
              have hs1 : getSession
                  { st with attendance := st.attendance ++ [⟨d, tnow, dev⟩] } sid =
                  some doc := by rw [hsid]; exact hmatch
              have hs0 : getSession st sid = some doc := by rw [hsid]; exact hmatch
              rw [hs1, hs0]
              rfl
            · rw [if_neg hsid]
              rfl
  · intro sid2 tnow st sid
    unfold deactivateSession
    cases hmatch : getSession st sid2 with
    | none => rfl
    | some doc =>
        dsimp only
        rw [getSession_updateSession]
        by_cases hsid : sid = sid2
        · rw [if_pos hsid]
          have hs0 : getSession st sid = some doc := by rw [hsid]; exact hmatch
          rw [hs0]
          rfl
        · rw [if_neg hsid]
  · intro fid tnow st sid
    rw [getSession_getActiveSessions]
    cases hmatch : getSession st sid with
    | none => rfl
    | some doc =>
        simp only [Option.map_some']
        split
        · rfl
        · rfl
  · intro sid2 url st sid
    unfold saveQRCodeToStorage
    cases hmatch : getSession st sid2 with
    | none => rfl
    | some doc =>
        dsimp only
        rw [getSession_updateSession]
        by_cases hsid : sid = sid2
        · rw [if_pos hsid]
          have hs0 : getSession st sid = some doc := by rw [hsid]; exact hmatch
          rw [hs0]
          rfl
        · rw [if_neg hsid]

/-- Witness for session_created_active_expiry_fixed: creating the demo
session over the empty store yields an active, empty, zero-count document
expiring exactly 30000 ms after its creation time. -/
theorem session_created_active_expiry_fixed_witness :
    ∃ doc, getSession ((createAttendanceSession "s1"
          (qrGeneratorSessionData "faculty_1" "sot" "sot24b1" "java" 2 0) 0
          emptyStore).2) "s1" = some doc ∧
      doc.isActive = true ∧ doc.studentsPresent = [] ∧ presentCount doc = 0 ∧
      doc.totalStudents = 0 ∧ doc.expiresAt = doc.createdAt + 30000 :=
  session_created_active_expiry_fixed.1 "faculty_1" "sot" "sot24b1" "java" 2 0 "s1"
    emptyStore (by decide)

/-- C9: once a stored session has isActive false, no modelled operation of
the core brings it back to true: markAttendance, createAttendanceSession,
deactivateSession, getActiveSessions and saveQRCodeToStorage all leave it
inactive. -/
theorem no_reactivation (st : Store) (sid : String)
    (h : (getSession st sid).map (fun doc => doc.isActive) = some false) :
    (∀ (d : AttendanceData) (tnow : Nat) (dev : String),
        (getSession ((markAttendance d tnow dev st).2) sid).map
          (fun doc => doc.isActive) = some false) ∧
    (∀ (sid2 : String) (cd : SessionCreateData) (tnow : Nat),
        (getSession ((createAttendanceSession sid2 cd tnow st).2) sid).map
          (fun doc => doc.isActive) = some false) ∧
    (∀ (sid2 : String) (tnow : Nat),
        (getSession ((deactivateSession sid2 tnow st).2) sid).map
          (fun doc => doc.isActive) = some false) ∧
    (∀ (fid : String) (tnow : Nat),
        (getSession ((getActiveSessions fid tnow st).2) sid).map
          (fun doc => doc.isActive) = some false) ∧
    (∀ (sid2 url : String),
        (getSession ((saveQRCodeToStorage sid2 url st).2) sid).map
          (fun doc => doc.isActive) = some false) := by
  obtain ⟨doc0, hg0, hact0⟩ : ∃ doc0, getSession st sid = some doc0 ∧
      doc0.isActive = false := by
    cases hg : getSession st sid with
    | none => rw [hg] at h; simp at h
    | some doc0 =>
        rw [hg, Option.map_some'] at h
        exact ⟨doc0, rfl, by simpa using h⟩
  refine ⟨?_, ?_, ?_, ?_, ?_⟩
  · intro d tnow dev
    by_cases hb : d.sessionId = ""
    · have hsame : getSession ((markAttendance d tnow dev st).2) sid =
          getSession st sid := by
        unfold getSession
        rw [markAttendance_sessions_of_blank d tnow dev st hb]
      rw [hsame]
      exact h
    · cases hmatch : getSession st d.sessionId with
      | none =>
          have hsame : getSession ((markAttendance d tnow dev st).2) sid =
              getSession st sid := by
            unfold getSession
            rw [markAttendance_sessions_of_absent d tnow dev st hmatch]
          rw [hsame]
          exact h
      | some doc =>
          by_cases hp : d.studentId ∈ presentIds doc
          · have hsame : getSession ((markAttendance d tnow dev st).2) sid =
                getSession st sid := by
              unfold getSession
              rw [markAttendance_of_present d tnow dev st doc hmatch hp]
            rw [hsame]
            exact h
          · rw [markAttendance_of_new d tnow dev st doc hb hmatch hp,
              getSession_updateSession]
            by_cases hsid : sid = d.sessionId
            · rw [if_pos hsid]
              have hs1 : getSession
                  { st with attendance := st.attendance ++ [⟨d, tnow, dev⟩] } sid =
                  some doc0 := hg0
              rw [hs1]
              have hdoc : doc = doc0 := by
                rw [hsid] at hg0
                rw [hmatch] at hg0
                exact (Option.some.injEq _ _ ▸ hg0)
              simp [markUpdatedDoc, hdoc, hact0]
            · rw [if_neg hsid]
              exact h
  · intro sid2 cd tnow
    unfold createAttendanceSession getSession
    dsimp only
    rw [lookupSession_append_of_some _ hg0]
    simpa using hact0
  · intro sid2 tnow
    unfold deactivateSession
    cases hmatch : getSession st sid2 with
    | none => exact h
    | some doc =>
        dsimp only
        rw [getSession_updateSession]
        by_cases hsid : sid = sid2
        · rw [if_pos hsid, hg0]
          rfl
        · rw [if_neg hsid]
          exact h
  · intro fid tnow
    rw [getSession_getActiveSessions, hg0]
    simp only [Option.map_some']
    split
    · rfl
    · simpa using hact0
  · intro sid2 url
    unfold saveQRCodeToStorage
    cases hmatch : getSession st sid2 with
    | none => exact h
    | some doc =>
        dsimp only
        rw [getSession_updateSession]
        by_cases hsid : sid = sid2
        · rw [if_pos hsid, hg0]
          simpa using hact0
        · rw [if_neg hsid]
          exact h

/-- Witness for no_reactivation: after deactivating demo session s1, a
further submission and a getActiveSessions sweep both leave it
inactive. -/
theorem no_reactivation_witness :
    (getSession ((markAttendance demoAttData 20000 "ua" demoStore2).2) "s1").map
      (fun doc => doc.isActive) = some false ∧
    (getSession ((getActiveSessions "faculty_1" 20000 demoStore2).2) "s1").map
      (fun doc => doc.isActive) = some false :=
  ⟨(no_reactivation demoStore2 "s1" (by decide)).1 demoAttData 20000 "ua",
   (no_reactivation demoStore2 "s1" (by decide)).2.2.2.1 "faculty_1" 20000⟩

end PW
